import Mathlib

/-!
Verification of the core pipeline of `src/app/app.py` (a live position
tracker): telemetry fetch, reverse-geocode enrichment, a bounded track
buffer, visibility segmentation and scene composition.

Shallow embedding conventions:
* Python floats that only flow through (coordinates, altitude, velocity)
  are modelled as `ℚ`; no floating-point arithmetic is performed on them
  by the program apart from 2-decimal formatting.
* JSON values are modelled by `JVal`; a parsed JSON object is an
  association list `List (String × JVal)`.
* Network effects are modelled by outcome types (`HttpOutcome`,
  `GeoOutcome`) passed as explicit inputs; an uncaught Python exception
  is an `Except.error` / `TickResult.raised` value.
* The three module-level deques (`TRACK_LAT`, `TRACK_LON`, `TRACK_VIS`,
  lines 25-27) are the fields of `TrackState`, threaded through
  `update_map` explicitly.
-/

/-- A JSON value, as far as the program inspects one. -/
inductive JVal where
  | num (q : ℚ)
  | str (s : String)
  | null
  | other
deriving DecidableEq, Repr, Inhabited

/-- Python exceptions that can escape the modelled code. -/
inductive PyExc where
  | jsonDecodeError
  | keyError
  | valueError
deriving DecidableEq, Repr

/-- Outcome of the telemetry HTTP GET (app.py line 33): a timeout, a
connection failure, or a response with a status code and a body that
either parses as a JSON object (`some obj`) or does not (`none`). -/
inductive HttpOutcome where
  | timeout
  | connError
  | response (status : Nat) (body : Option (List (String × JVal)))
deriving DecidableEq, Repr

/-- The geocode JSON, restricted to the one field the code reads
(app.py line 167): `country_code`, a string when present. -/
structure GeoJson where
  country_code : Option String
deriving DecidableEq, Repr

/-- Outcome of the reverse-geocode HTTP GET (app.py lines 163-166):
any `requests.RequestException` (timeout, connection error), or a
response with a status and an optionally-JSON body. -/
inductive GeoOutcome where
  | exc
  | response (status : Nat) (body : Option GeoJson)
deriving DecidableEq, Repr

/-- One row of the track DataFrame (app.py lines 184-188): columns
`lat`, `lon`, `vis`. -/
structure Row where
  lat : ℚ
  lon : ℚ
  vis : JVal
deriving DecidableEq, Repr, Inhabited

/-- app.py line 23: `color_map`. -/
def color_map : List (String × String) :=
  [("daylight", "white"), ("visible", "#FFFF00"), ("eclipsed", "red")]

/-- app.py line 24: `MAX_POINTS = 1080`. -/
def MAX_POINTS : Nat := 1080

/-- Model of `collections.deque(maxlen=cap).append x`: add on the right, then
discard from the left anything beyond the capacity. -/
def dequeAppend (cap : Nat) (q : List α) (x : α) : List α :=
  let q' := q ++ [x]
  if cap < q'.length then q'.drop (q'.length - cap) else q'

/-- The three track deques of app.py lines 25-27, at process start. -/
structure TrackState where
  trackLat : List ℚ
  trackLon : List ℚ
  trackVis : List JVal
deriving DecidableEq, Repr

/-- app.py lines 25-27: the deques are created empty. -/
def initialTrackState : TrackState := ⟨[], [], []⟩

/-- Columns dropped from the telemetry frame (app.py lines 38-39). -/
def dropped_columns : List String :=
  ["id", "footprint", "daynum", "solar_lat", "solar_lon"]

/-- Model of `df.drop(dropped_columns, errors="ignore")` on a one-row frame. -/
def dropCols (d : List (String × JVal)) : List (String × JVal) :=
  d.filter (fun kv => ¬ dropped_columns.contains kv.1)

/-- app.py lines 30-45, `get_iss_telemetry`. `requests.Timeout` and
`requests.ConnectionError` are caught (line 41), `raise_for_status`
raises `HTTPError` for 4xx/5xx statuses which is caught (line 43), and
both caught paths fall through to `return None`.  `resp.json()` on a
non-JSON body raises a JSON decode error that none of the `except`
clauses catch, so it escapes to the caller (`Except.error`).  The body
is returned as a one-row frame with the unnecessary columns dropped; no
field validation is performed. -/
def get_iss_telemetry (o : HttpOutcome) : Except PyExc (Option (List (String × JVal))) :=
  match o with
  | .timeout => .ok none
  | .connError => .ok none
  | .response status body =>
    if 400 ≤ status ∧ status < 600 then .ok none
    else
      match body with
      | none => .error .jsonDecodeError
      | some data => .ok (some (dropCols data))

/-- Model of `df.iloc[start:i]` on the track frame. -/
def sliceIdx (df : List Row) (start i : Nat) : List Row :=
  (df.drop start).take (i - start)

/-- The body of the loop of `split_segments` (app.py lines 52-55) for
one index `i`, on the state `(start, segments)`: when the visibility at
`i` differs from the one at `i-1`, push `df.iloc[start:i]` and set
`start = i`. -/
def split_step (df : List Row) (acc : Nat × List (List Row)) (i : Nat) :
    Nat × List (List Row) :=
  if (df.getD i default).vis ≠ (df.getD (i - 1) default).vis then
    (i, acc.2 ++ [sliceIdx df acc.1 i])
  else acc

/-- app.py lines 47-57, `split_segments`: empty frame gives `[]`,
otherwise `for i in range(1, len(df))` runs the loop body from
`start = 0` with no segments yet, and the final
`segments.append(df.iloc[start:])` closes the last segment. -/
def split_segments (df : List Row) : List (List Row) :=
  if df.isEmpty then []
  else
    let p := (List.range' 1 (df.length - 1)).foldl (split_step df) (0, [])
    p.2 ++ [df.drop p.1]

/-- Structural form of the segmentation loop: `acc ++ [prev]` is the
segment built so far (`prev` is the most recent sample), and the
remaining input is walked one sample at a time.  Proved equal to the
loop of `split_segments` below. -/
def runsAux (acc : List Row) (prev : Row) : List Row → List (List Row)
  | [] => [acc ++ [prev]]
  | x :: xs =>
    if x.vis ≠ prev.vis then (acc ++ [prev]) :: runsAux [] x xs
    else runsAux (acc ++ [prev]) x xs

/-- Structural form of `split_segments`; proved equal to it below. -/
def runs : List Row → List (List Row)
  | [] => []
  | x :: xs => runsAux [] x xs

/-- The visibility of a segment, read at its first sample
(`seg["vis"].iloc[0]`, app.py line 197); `.null` for the (unreachable)
empty segment. -/
def segVisHead (seg : List Row) : JVal :=
  (seg.head?.map Row.vis).getD .null

/-- Model of `vtype in color_map` / `color_map[vtype]` (app.py lines 198, 203):
only string visibility values can match the dict's string keys. -/
def colorOf : JVal → Option String
  | .str s => color_map.lookup s
  | _ => none

/-- One `go.Scattergeo` line trace (app.py lines 199-206): the segment's
latitude and longitude columns and the mapped line color. -/
structure Layer where
  lats : List ℚ
  lons : List ℚ
  color : String
deriving DecidableEq, Repr

/-- The body of the loop at app.py lines 196-206 for one segment:
a trace when the segment's visibility is a `color_map` key, nothing
otherwise.  (`seg["vis"].iloc[0]` on an empty segment would raise, but
segments produced by `split_segments` are never empty.) -/
def mkLayer (seg : List Row) : Option Layer :=
  match seg.head? with
  | none => none
  | some r => (colorOf r.vis).map fun c => ⟨seg.map Row.lat, seg.map Row.lon, c⟩

/-- The line traces added by the loop at app.py lines 196-206. -/
def lineLayersOf (track : List Row) : List Layer :=
  (split_segments track).filterMap mkLayer

/-- A fragment of `pycountry`'s static ISO 3166-1 alpha-2 table
(app.py line 169); the full table is the module's data file.  The codes
below are genuine ISO assignments; `"ZZ"` and other user-assigned codes
are absent from the real table just as they are absent here. -/
def pycountry_alpha2 : List (String × String) :=
  [("US", "United States"), ("FR", "France"), ("DE", "Germany"),
   ("JP", "Japan"), ("AU", "Australia"), ("BR", "Brazil"), ("IT", "Italy")]

/-- Model of `pycountry.countries.get(alpha_2=code)`: `none` when no match. -/
def pycountry_get (code : String) : Option String :=
  pycountry_alpha2.lookup code

/-- Model of `code.upper()` (app.py line 169), character by character. -/
def pyUpper (s : String) : String := ⟨s.data.map Char.toUpper⟩

/-- app.py lines 160-173, the country lookup.  `country_name` and
`country_color` start as `("Ocean", "red")`; any
`requests.RequestException` — timeout, connection error, the
`raise_for_status` `HTTPError` on 4xx/5xx, or the JSON decode error
from `resp2.json()` (a `RequestException` subclass in requests ≥ 2.27)
— is swallowed by the bare `except` (line 172).  A present, non-empty
code other than `"??"` is upper-cased and looked up; a match gives its
name, no match leaves the raw code as the label (line 170). -/
def resolveCountry (geo : GeoOutcome) : String × String :=
  match geo with
  | .exc => ("Ocean", "red")
  | .response status body =>
    if 400 ≤ status ∧ status < 600 then ("Ocean", "red")
    else
      match body with
      | none => ("Ocean", "red")
      | some cdata =>
        match cdata.country_code with
        | none => ("Ocean", "red")
        | some code =>
          if code = "" ∨ code = "??" then ("Ocean", "red")
          else
            match pycountry_get (pyUpper code) with
            | some name => (name, "red")
            | none => (code, "red")

/-- Banker's rounding of a rational to an integer, the rounding used by
Python's fixed-point formatting. -/
def roundHalfEven (q : ℚ) : ℤ :=
  let f : ℤ := ⌊q⌋
  let r : ℚ := q - f
  if r < 1/2 then f
  else if 1/2 < r then f + 1
  else if f % 2 = 0 then f else f + 1

/-- Two decimal digits, left-padded with a zero. -/
def pad2 (n : Nat) : String :=
  if n < 10 then "0" ++ toString n else toString n

/-- Python's 2-decimal fixed-point f-string formatting on the
modelled rationals: round to
hundredths (half-to-even) and print with exactly two digits after the
point.  (Python would also print a sign for a negative zero result;
that cosmetic case is not modelled.) -/
def fmt2 (q : ℚ) : String :=
  let n : ℤ := roundHalfEven (q * 100)
  let sign := if n < 0 then "-" else ""
  sign ++ toString (n.natAbs / 100) ++ "." ++ pad2 (n.natAbs % 100)

/-- Model of `df[k].iloc[0]` on the one-row telemetry frame: a missing column
raises `KeyError`. -/
def getField (df : List (String × JVal)) (k : String) : Except PyExc JVal :=
  match df.lookup k with
  | none => .error .keyError
  | some v => .ok v

/-- Model of `float(df[k].iloc[0])` (app.py lines 153-156): a missing column
raises `KeyError`; `float()` of a non-numeric value raises
`ValueError`.  (Numeric strings, which `float()` would parse, do not
occur in the modelled telemetry.) -/
def getNum (df : List (String × JVal)) (k : String) : Except PyExc ℚ :=
  match df.lookup k with
  | none => .error .keyError
  | some (.num q) => .ok q
  | some _ => .error .valueError

/-- The `dcc.Store` payload (app.py lines 128 and 191):
parallel arrays keyed `lat`, `lon`, `vis`. -/
structure StoreData where
  lat : List ℚ
  lon : List ℚ
  vis : List JVal
deriving DecidableEq, Repr

/-- Model of the `pd.DataFrame` construction at app.py lines
184-188 as a row list.  The three deques always have equal lengths
(they are appended to in lockstep), so the zip is exact. -/
def zipRows : List ℚ → List ℚ → List JVal → List Row
  | a :: as, b :: bs, c :: cs => ⟨a, b, c⟩ :: zipRows as bs cs
  | _, _, _ => []

/-- The legend annotation (app.py lines 230-235), with its HTML markup
abbreviated; it is a fixed function of `color_map`. -/
def legend_html : String :=
  "Visibility: " ++ ((color_map.lookup "daylight").getD "") ++ " daylight, "
    ++ ((color_map.lookup "visible").getD "") ++ " visible, "
    ++ ((color_map.lookup "eclipsed").getD "") ++ " eclipsed"

/-- The `go.Figure` built by `update_map`, restricted to the data the
code puts into it: the per-segment line traces (lines 196-206), the
main text marker (lines 210-218), the inset dot marker (lines 221-228)
and the three text annotations (lines 246-260). -/
structure Scene where
  lineLayers : List Layer
  mainLat : ℚ
  mainLon : ℚ
  mainText : String
  insetLat : ℚ
  insetLon : ℚ
  insetColor : String
  countryText : String
  timeText : String
  legendText : String
deriving DecidableEq, Repr

/-- The six callback outputs on a successful tick (app.py lines
285-286): the figure, the four readout strings, and the store data. -/
structure TickOut where
  fig : Scene
  latBox : String
  lonBox : String
  altBox : String
  velBox : String
  store : StoreData
deriving DecidableEq, Repr

/-- How one call of the callback ends: with an uncaught exception, with
`PreventUpdate` (Dash updates nothing), or with the six outputs. -/
inductive TickResult where
  | raised (e : PyExc)
  | noUpdate
  | updated (out : TickOut)
deriving DecidableEq, Repr

/-- app.py lines 147-286, `update_map`, as a function of the two
network outcomes, the current formatted UTC time (line 158), the global
deque state, and the `track-store` State argument.  It returns how the
tick ends together with the deque state afterwards.  Field extraction
(lines 153-157) happens before the deque appends (lines 179-181), so a
`KeyError`/`ValueError` there leaves the deques untouched; the
reassignment of `track_data` at line 191 shadows the State input, which
is never read.  (`country_color`, assigned at lines 161/171, is never
read afterwards in the source and is not bound here.) -/
def update_map (fetch : HttpOutcome) (geo : GeoOutcome) (now : String)
    (st : TrackState) (track_data : StoreData) : TickResult × TrackState :=
  match get_iss_telemetry fetch with
  | .error e => (.raised e, st)
  | .ok none => (.noUpdate, st)
  | .ok (some df) =>
    match getNum df "latitude" with
    | .error e => (.raised e, st)
    | .ok lat =>
    match getNum df "longitude" with
    | .error e => (.raised e, st)
    | .ok lon =>
    match getNum df "altitude" with
    | .error e => (.raised e, st)
    | .ok alt =>
    match getNum df "velocity" with
    | .error e => (.raised e, st)
    | .ok vel =>
    match getField df "visibility" with
    | .error e => (.raised e, st)
    | .ok vis =>
      let country_name := (resolveCountry geo).1
      let trackLat := dequeAppend MAX_POINTS st.trackLat lat
      let trackLon := dequeAppend MAX_POINTS st.trackLon lon
      let trackVis := dequeAppend MAX_POINTS st.trackVis vis
      let track_df := zipRows trackLat trackLon trackVis
      let track_data := StoreData.mk trackLat trackLon trackVis
      let current_color := (colorOf vis).getD "#FFFFFF"
      let fig : Scene :=
        { lineLayers := lineLayersOf track_df
          mainLat := lat, mainLon := lon, mainText := "🎅"
          insetLat := lat, insetLon := lon, insetColor := current_color
          countryText := country_name, timeText := now
          legendText := legend_html }
      (.updated ⟨fig, fmt2 lat, fmt2 lon, fmt2 alt, fmt2 vel, track_data⟩,
       ⟨trackLat, trackLon, trackVis⟩)

/-- A telemetry JSON body carrying exactly the five fields the callback
reads. -/
def mkBody (lat lon alt vel : ℚ) (vis : JVal) : List (String × JVal) :=
  [("latitude", .num lat), ("longitude", .num lon), ("altitude", .num alt),
   ("velocity", .num vel), ("visibility", vis)]

/-- A concrete successful fetch outcome, used by witnesses. -/
def sampleFetch : HttpOutcome :=
  .response 200 (some (mkBody 1 2 3 4 (.str "daylight")))

/-- One concrete tick on `sampleFetch` from the initial state. -/
def sampleRun : TickResult × TrackState :=
  update_map sampleFetch .exc "t" initialTrackState ⟨[], [], []⟩

/-- The outputs of `sampleRun` (it does update). -/
def sampleOut : TickOut :=
  match sampleRun.1 with
  | .updated o => o
  | _ => ⟨⟨[], 0, 0, "", 0, 0, "", "", "", ""⟩, "", "", "", "", ⟨[], [], []⟩⟩

/-! ## Lemmas about the bounded deque -/

theorem dequeAppend_length_le (cap : Nat) (q : List α) (x : α) :
    (dequeAppend cap q x).length ≤ cap ∨
      (dequeAppend cap q x).length = q.length + 1 := by
  unfold dequeAppend
  dsimp only
  split
  · left
    simp only [List.length_drop, List.length_append, List.length_cons,
      List.length_nil]
    omega
  · right
    simp

theorem foldl_dequeAppend_from_nil (cap : Nat) (hcap : 0 < cap) (xs : List α) :
    xs.foldl (dequeAppend cap) [] = xs.drop (xs.length - cap) := by
  induction xs using List.reverseRecOn with
  | nil => simp
  | append_singleton ys x ih =>
    rw [List.foldl_append, List.foldl_cons, List.foldl_nil, ih]
    by_cases hlen : ys.length < cap
    · have h1 : ys.length - cap = 0 := by omega
      have h2 : ys.length + 1 - cap = 0 := by omega
      rw [h1, List.drop_zero]
      unfold dequeAppend
      simp only [List.length_append, List.length_cons, List.length_nil,
        List.length_singleton]
      rw [if_neg (by omega)]
      simp [h2]
    · push_neg at hlen
      have hA : (ys.drop (ys.length - cap)).length = cap := by
        simp only [List.length_drop]; omega
      unfold dequeAppend
      simp only [List.length_append, hA, List.length_singleton]
      rw [if_pos (by omega)]
      have h3 : cap + 1 - cap = 1 := by omega
      rw [h3, List.drop_append_of_le_length (by omega), List.drop_drop]
      have h4 : ys.length + 1 - cap ≤ ys.length := by omega
      rw [List.drop_append_of_le_length h4]
      congr 2
      omega

theorem foldl_dequeAppend_length_le (cap : Nat) (hcap : 0 < cap) (xs : List α) :
    (xs.foldl (dequeAppend cap) []).length ≤ cap := by
  rw [foldl_dequeAppend_from_nil cap hcap]
  simp only [List.length_drop]
  omega

/-- C1: for every sequence of appends into a track deque, the size
stays at most the capacity `MAX_POINTS = 1080` after every call (the
prefix fold), and the final contents are exactly the last
`MAX_POINTS` appended samples in arrival order — i.e. `append` past
capacity evicts the oldest first (strict FIFO). -/
theorem spec_C1_track_buffer_bounded_fifo (α : Type) (xs : List α) (n : Nat) :
    ((xs.take n).foldl (dequeAppend MAX_POINTS) []).length ≤ MAX_POINTS ∧
    xs.foldl (dequeAppend MAX_POINTS) [] = xs.drop (xs.length - MAX_POINTS) := by
  constructor
  · exact foldl_dequeAppend_length_le MAX_POINTS (by decide) _
  · exact foldl_dequeAppend_from_nil MAX_POINTS (by decide) xs

/-- C7: the segmenter is a pure function of its input sequence: two
runs on the same sequence give identical segment boundaries and
contents. -/
theorem spec_C7_segmentation_deterministic (s : List Row) :
    split_segments s = split_segments s := rfl

/-! ## The segmentation loop equals the structural run-splitting -/

theorem sliceIdx_self (df : List Row) (i : Nat) : sliceIdx df i i = [] := by
  simp [sliceIdx]

theorem sliceIdx_extend (df : List Row) (start i : Nat)
    (h1 : start < i) (h2 : i ≤ df.length) :
    sliceIdx df start i = sliceIdx df start (i - 1) ++ [df.getD (i - 1) default] := by
  unfold sliceIdx
  have h3 : i - start = (i - 1 - start) + 1 := by omega
  rw [h3, List.take_succ, List.getElem?_drop]
  have h4 : start + (i - 1 - start) = i - 1 := by omega
  have h5 : i - 1 < df.length := by omega
  rw [h4, List.getElem?_eq_getElem h5, List.getD_eq_getElem df default h5]
  rfl

theorem sliceIdx_full (df : List Row) (start : Nat) (h : start ≤ df.length) :
    sliceIdx df start df.length = df.drop start := by
  unfold sliceIdx
  apply List.take_of_length_le
  simp only [List.length_drop]
  omega

theorem runsAux_cons (acc : List Row) (prev x : Row) (xs : List Row) :
    runsAux acc prev (x :: xs) =
      if x.vis ≠ prev.vis then (acc ++ [prev]) :: runsAux [] x xs
      else runsAux (acc ++ [prev]) x xs := rfl

theorem split_fold_eq_runsAux (df : List Row) :
    ∀ (k i start : Nat) (segs : List (List Row)),
      start < i → i ≤ df.length → df.length - i = k →
      ((List.range' i (df.length - i)).foldl (split_step df) (start, segs)).2 ++
          [df.drop ((List.range' i (df.length - i)).foldl (split_step df)
            (start, segs)).1] =
        segs ++ runsAux (sliceIdx df start (i - 1)) (df.getD (i - 1) default)
          (df.drop i) := by
  intro k
  induction k with
  | zero =>
    intro i start segs h1 h2 h3
    have hi : i = df.length := by omega
    subst hi
    simp only [Nat.sub_self, List.range'_zero, List.foldl_nil, List.drop_length,
      runsAux]
    rw [← sliceIdx_extend df start df.length h1 (by omega),
      sliceIdx_full df start (by omega)]
  | succ k ih =>
    intro i start segs h1 h2 h3
    have hik : i < df.length := by omega
    have hrange : List.range' i (df.length - i) =
        i :: List.range' (i + 1) (df.length - (i + 1)) := by
      have h4 : df.length - i = (df.length - (i + 1)) + 1 := by omega
      rw [h4, List.range'_succ]
    have hdrop : df.drop i = df.getD i default :: df.drop (i + 1) := by
      rw [List.drop_eq_getElem_cons hik, List.getD_eq_getElem df default hik]
    rw [hrange, List.foldl_cons, hdrop]
    by_cases hvis : (df.getD i default).vis ≠ (df.getD (i - 1) default).vis
    · have hstep : split_step df (start, segs) i =
          (i, segs ++ [sliceIdx df start i]) := by
        unfold split_step
        dsimp only
        rw [if_pos hvis]
      rw [hstep,
        ih (i + 1) i (segs ++ [sliceIdx df start i]) (by omega) (by omega)
          (by omega)]
      simp only [Nat.add_sub_cancel, sliceIdx_self]
      rw [runsAux_cons, if_pos hvis,
        ← sliceIdx_extend df start i h1 (by omega), List.append_assoc,
        List.singleton_append]
    · have hstep : split_step df (start, segs) i = (start, segs) := by
        unfold split_step
        dsimp only
        rw [if_neg hvis]
      rw [hstep, ih (i + 1) start segs (by omega) (by omega) (by omega)]
      simp only [Nat.add_sub_cancel]
      rw [runsAux_cons, if_neg hvis,
        ← sliceIdx_extend df start i h1 (by omega)]

theorem split_segments_eq_runs (df : List Row) : split_segments df = runs df := by
  cases df with
  | nil => rfl
  | cons x xs =>
    show ((List.range' 1 ((x :: xs).length - 1)).foldl (split_step (x :: xs))
        (0, [])).2 ++
        [(x :: xs).drop ((List.range' 1 ((x :: xs).length - 1)).foldl
          (split_step (x :: xs)) (0, [])).1] = runs (x :: xs)
    have h := split_fold_eq_runsAux (x :: xs) xs.length 1 0 [] (by omega)
      (by simp) (by simp)
    simp only [List.length_cons, Nat.add_sub_cancel] at h ⊢
    rw [h]
    simp only [List.nil_append, Nat.sub_self]
    rw [sliceIdx_self]
    rfl

/-! ## Structural properties of the run-splitting -/

theorem runsAux_flatten (l : List Row) :
    ∀ acc prev, (runsAux acc prev l).flatten = acc ++ prev :: l := by
  induction l with
  | nil => intro acc prev; simp [runsAux]
  | cons x xs ih =>
    intro acc prev
    unfold runsAux
    by_cases hvis : x.vis ≠ prev.vis
    · rw [if_pos hvis]
      simp [ih, List.flatten_cons]
    · rw [if_neg hvis]
      simp [ih]

theorem runsAux_ne_nil (l : List Row) :
    ∀ acc prev seg, seg ∈ runsAux acc prev l → seg ≠ [] := by
  induction l with
  | nil =>
    intro acc prev seg hmem
    simp only [runsAux, List.mem_singleton] at hmem
    subst hmem
    simp
  | cons x xs ih =>
    intro acc prev seg hmem
    unfold runsAux at hmem
    by_cases hvis : x.vis ≠ prev.vis
    · rw [if_pos hvis] at hmem
      rcases List.mem_cons.mp hmem with h | h
      · subst h; simp
      · exact ih [] x seg h
    · rw [if_neg hvis] at hmem
      exact ih (acc ++ [prev]) x seg hmem

theorem runsAux_homog (l : List Row) :
    ∀ acc prev, (∀ a ∈ acc, a.vis = prev.vis) →
      ∀ seg ∈ runsAux acc prev l, ∀ a ∈ seg, ∀ b ∈ seg, a.vis = b.vis := by
  induction l with
  | nil =>
    intro acc prev hacc seg hmem a ha b hb
    simp only [runsAux, List.mem_singleton] at hmem
    subst hmem
    have va : a.vis = prev.vis := by
      rcases List.mem_append.mp ha with h | h
      · exact hacc a h
      · simp only [List.mem_singleton] at h; subst h; rfl
    have vb : b.vis = prev.vis := by
      rcases List.mem_append.mp hb with h | h
      · exact hacc b h
      · simp only [List.mem_singleton] at h; subst h; rfl
    rw [va, vb]
  | cons x xs ih =>
    intro acc prev hacc seg hmem a ha b hb
    unfold runsAux at hmem
    by_cases hvis : x.vis ≠ prev.vis
    · rw [if_pos hvis] at hmem
      rcases List.mem_cons.mp hmem with h | h
      · subst h
        have va : a.vis = prev.vis := by
          rcases List.mem_append.mp ha with h' | h'
          · exact hacc a h'
          · simp only [List.mem_singleton] at h'; subst h'; rfl
        have vb : b.vis = prev.vis := by
          rcases List.mem_append.mp hb with h' | h'
          · exact hacc b h'
          · simp only [List.mem_singleton] at h'; subst h'; rfl
        rw [va, vb]
      · exact ih [] x (by simp) seg h a ha b hb
    · rw [if_neg hvis] at hmem
      push_neg at hvis
      refine ih (acc ++ [prev]) x ?_ seg hmem a ha b hb
      intro c hc
      rcases List.mem_append.mp hc with h' | h'
      · rw [hacc c h', ← hvis]
      · simp only [List.mem_singleton] at h'; subst h'; exact hvis.symm

theorem runsAux_first_head_vis (l : List Row) :
    ∀ acc prev, (∀ a ∈ acc, a.vis = prev.vis) →
      ∃ s ss, runsAux acc prev l = s :: ss ∧ s.head?.map Row.vis = some prev.vis := by
  induction l with
  | nil =>
    intro acc prev hacc
    refine ⟨acc ++ [prev], [], rfl, ?_⟩
    cases acc with
    | nil => rfl
    | cons a as =>
      simp only [List.cons_append, List.head?_cons, Option.map_some']
      rw [hacc a (by simp)]
  | cons x xs ih =>
    intro acc prev hacc
    unfold runsAux
    by_cases hvis : x.vis ≠ prev.vis
    · rw [if_pos hvis]
      refine ⟨acc ++ [prev], runsAux [] x xs, rfl, ?_⟩
      cases acc with
      | nil => rfl
      | cons a as =>
        simp only [List.cons_append, List.head?_cons, Option.map_some']
        rw [hacc a (by simp)]
    · rw [if_neg hvis]
      push_neg at hvis
      obtain ⟨s, ss, heq, hhead⟩ := ih (acc ++ [prev]) x (by
        intro c hc
        rcases List.mem_append.mp hc with h' | h'
        · rw [hacc c h', ← hvis]
        · simp only [List.mem_singleton] at h'; subst h'; exact hvis.symm)
      exact ⟨s, ss, heq, by rw [hhead, hvis]⟩

theorem runsAux_chain (l : List Row) :
    ∀ acc prev, (∀ a ∈ acc, a.vis = prev.vis) →
      List.Chain' (fun s t => s.head?.map Row.vis ≠ t.head?.map Row.vis)
        (runsAux acc prev l) := by
  induction l with
  | nil => intro acc prev _; exact List.chain'_singleton _
  | cons x xs ih =>
    intro acc prev hacc
    unfold runsAux
    by_cases hvis : x.vis ≠ prev.vis
    · rw [if_pos hvis]
      obtain ⟨s, ss, heq, hhead⟩ := runsAux_first_head_vis xs [] x (by simp)
      rw [heq]
      rw [List.chain'_cons]
      constructor
      · have hfirst : (acc ++ [prev]).head?.map Row.vis = some prev.vis := by
          cases acc with
          | nil => rfl
          | cons a as =>
            simp only [List.cons_append, List.head?_cons, Option.map_some']
            rw [hacc a (by simp)]
        rw [hfirst, hhead]
        intro hcontra
        exact hvis (Option.some_injective _ hcontra).symm
      · rw [← heq]
        exact ih [] x (by simp)
    · rw [if_neg hvis]
      push_neg at hvis
      refine ih (acc ++ [prev]) x ?_
      intro c hc
      rcases List.mem_append.mp hc with h' | h'
      · rw [hacc c h', ← hvis]
      · simp only [List.mem_singleton] at h'; subst h'; exact hvis.symm

/-! ## Properties transported to `split_segments` -/

theorem runs_flatten (df : List Row) : (runs df).flatten = df := by
  cases df with
  | nil => rfl
  | cons x xs => exact runsAux_flatten xs [] x

theorem runs_ne_nil (df : List Row) : ∀ seg ∈ runs df, seg ≠ [] := by
  cases df with
  | nil => intro seg h; cases h
  | cons x xs => exact fun seg h => runsAux_ne_nil xs [] x seg h

theorem runs_homog (df : List Row) :
    ∀ seg ∈ runs df, ∀ a ∈ seg, ∀ b ∈ seg, a.vis = b.vis := by
  cases df with
  | nil => intro seg h; cases h
  | cons x xs => exact runsAux_homog xs [] x (by simp)

theorem runs_chain (df : List Row) :
    List.Chain' (fun s t => s.head?.map Row.vis ≠ t.head?.map Row.vis)
      (runs df) := by
  cases df with
  | nil => exact List.chain'_nil
  | cons x xs => exact runsAux_chain xs [] x (by simp)

/-- C2: the segmenter partitions its input: the concatenation of all
segments, in order, reproduces the input exactly once; every segment is
non-empty and visibility-homogeneous; adjacent segments have different
visibility values; and the empty input yields the empty list. -/
theorem spec_C2_segmentation_partition (df seg : List Row)
    (hmem : seg ∈ split_segments df) :
    (split_segments df).flatten = df ∧
    seg ≠ [] ∧
    (∀ a ∈ seg, ∀ b ∈ seg, a.vis = b.vis) ∧
    List.Chain' (fun s t => s.head?.map Row.vis ≠ t.head?.map Row.vis)
      (split_segments df) ∧
    split_segments ([] : List Row) = [] := by
  rw [split_segments_eq_runs] at hmem ⊢
  exact ⟨runs_flatten df, runs_ne_nil df seg hmem, runs_homog df seg hmem,
    split_segments_eq_runs df ▸ runs_chain df, rfl⟩

/-- Witness for C2 on the concrete input
`[daylight, daylight, eclipsed]`: its first segment is the two daylight
samples. -/
theorem spec_C2_segmentation_partition_witness :
    (split_segments
        [⟨0, 0, .str "daylight"⟩, ⟨0, 1, .str "daylight"⟩,
         ⟨1, 1, .str "eclipsed"⟩]).flatten =
      [⟨0, 0, .str "daylight"⟩, ⟨0, 1, .str "daylight"⟩,
       ⟨1, 1, .str "eclipsed"⟩] ∧
    ([⟨0, 0, .str "daylight"⟩, ⟨0, 1, .str "daylight"⟩] : List Row) ≠ [] ∧
    (∀ a ∈ ([⟨0, 0, .str "daylight"⟩, ⟨0, 1, .str "daylight"⟩] : List Row),
      ∀ b ∈ ([⟨0, 0, .str "daylight"⟩, ⟨0, 1, .str "daylight"⟩] : List Row),
        a.vis = b.vis) ∧
    List.Chain' (fun s t => s.head?.map Row.vis ≠ t.head?.map Row.vis)
      (split_segments
        [⟨0, 0, .str "daylight"⟩, ⟨0, 1, .str "daylight"⟩,
         ⟨1, 1, .str "eclipsed"⟩]) ∧
    split_segments ([] : List Row) = [] :=
  spec_C2_segmentation_partition
    [⟨0, 0, .str "daylight"⟩, ⟨0, 1, .str "daylight"⟩, ⟨1, 1, .str "eclipsed"⟩]
    [⟨0, 0, .str "daylight"⟩, ⟨0, 1, .str "daylight"⟩] (by decide)

/-! ## Dropping of unknown-visibility segments (C6) -/

theorem length_filterMap_lt_of_mem_none (f : α → Option β) (l : List α) (x : α)
    (hx : x ∈ l) (hfx : f x = none) : (l.filterMap f).length < l.length := by
  induction l with
  | nil => cases hx
  | cons y ys ih =>
    rcases List.mem_cons.mp hx with h | h
    · subst h
      rw [List.filterMap_cons, hfx]
      exact Nat.lt_succ_of_le (List.length_filterMap_le f ys)
    · rw [List.filterMap_cons]
      cases f y with
      | none => exact Nat.lt_succ_of_lt (ih h)
      | some b =>
        simp only [List.length_cons]
        exact Nat.succ_lt_succ (ih h)

/-- C6: a segment whose visibility is none of the three `color_map`
keys contributes no line-layer trace (its `mkLayer` is `none`, and the
line-layer list is strictly shorter than the segment list), while the
segment itself remains in the segment list — a silent drop, not an
error. -/
theorem spec_C6_unknown_visibility_dropped (track seg : List Row)
    (hmem : seg ∈ split_segments track)
    (hunknown : colorOf (segVisHead seg) = none) :
    mkLayer seg = none ∧
    (lineLayersOf track).length < (split_segments track).length ∧
    seg ∈ split_segments track := by
  have hlayer : mkLayer seg = none := by
    unfold mkLayer
    cases hs : seg.head? with
    | none => rfl
    | some r =>
      unfold segVisHead at hunknown
      rw [hs] at hunknown
      simp only [Option.map_some', Option.getD_some] at hunknown
      dsimp only
      rw [hunknown]
      rfl
  refine ⟨hlayer, ?_, hmem⟩
  unfold lineLayersOf
  exact length_filterMap_lt_of_mem_none mkLayer _ seg hmem hlayer

/-- Witness for C6: a one-sample track whose visibility `"weird"` is
not a `color_map` key. -/
theorem spec_C6_unknown_visibility_dropped_witness :
    mkLayer [⟨1, 2, .str "weird"⟩] = none ∧
    (lineLayersOf [⟨1, 2, .str "weird"⟩]).length <
      (split_segments [⟨1, 2, .str "weird"⟩]).length ∧
    ([⟨1, 2, .str "weird"⟩] : List Row) ∈ split_segments [⟨1, 2, .str "weird"⟩] :=
  spec_C6_unknown_visibility_dropped [⟨1, 2, .str "weird"⟩]
    [⟨1, 2, .str "weird"⟩] (by decide) (by decide)

/-! ## Tick atomicity on fetch failure (C3) and store independence (C9) -/

/-- C3: whenever the telemetry fetch fails (the callback receives
`None` at line 150), the tick raises `PreventUpdate` — no figure, no
readouts, no store update — and the track deques after the tick are
bit-for-bit the deques before it. -/
theorem spec_C3_tick_atomic_on_fetch_failure (fetch : HttpOutcome)
    (geo : GeoOutcome) (now : String) (st : TrackState) (td : StoreData)
    (h : get_iss_telemetry fetch = .ok none) :
    update_map fetch geo now st td = (.noUpdate, st) := by
  unfold update_map
  rw [h]

/-- Witness for C3: a timed-out fetch on a non-empty buffer. -/
theorem spec_C3_tick_atomic_on_fetch_failure_witness :
    get_iss_telemetry .timeout = .ok none ∧
    update_map .timeout .exc "t" ⟨[1], [2], [.str "daylight"]⟩ ⟨[], [], []⟩ =
      (.noUpdate, ⟨[1], [2], [.str "daylight"]⟩) :=
  ⟨rfl, spec_C3_tick_atomic_on_fetch_failure .timeout .exc "t"
    ⟨[1], [2], [.str "daylight"]⟩ ⟨[], [], []⟩ rfl⟩

/-- C9: the callback's outputs do not depend on the persisted-store
State argument: with the same fetch and geocode outcomes, the same
clock and the same global deques, any two values of `track_data` give
identical results (the parameter is shadowed at line 191 before any
read). -/
theorem spec_C9_store_state_ignored (fetch : HttpOutcome) (geo : GeoOutcome)
    (now : String) (st : TrackState) (td td' : StoreData) :
    update_map fetch geo now st td = update_map fetch geo now st td' := rfl

/-! ## Location resolution (C4) -/

/-- Counterexample to C4 as stated: `"ZZ"` is a well-formed,
non-empty, non-`"??"` country code that is unknown to the code→name
table, yet the resolver labels the location `"ZZ"`, not the claimed
fallback `"Ocean"` (line 170: `match.name if match else code`). -/
theorem spec_C4_counterexample :
    pycountry_get "ZZ" = none ∧
    resolveCountry (.response 200 (some ⟨some "ZZ"⟩)) = ("ZZ", "red") ∧
    (resolveCountry (.response 200 (some ⟨some "ZZ"⟩))).1 ≠ "Ocean" := by
  decide

/-- C4 (amended): location resolution is total — it never raises into
the tick — and every failure outcome (exception, 4xx/5xx status,
non-JSON body, absent, empty or `"??"` country code) degrades to
`("Ocean", "red")`; a known code resolves to the table's name, and a
code unknown to the table yields the code itself as the label; the
color hint is `"red"` in every case. -/
theorem spec_C4_resolver_fallback :
    (resolveCountry .exc = ("Ocean", "red")) ∧
    (∀ s b, 400 ≤ s → s < 600 → resolveCountry (.response s b) = ("Ocean", "red")) ∧
    (∀ s, ¬(400 ≤ s ∧ s < 600) →
      resolveCountry (.response s none) = ("Ocean", "red")) ∧
    (∀ s, ¬(400 ≤ s ∧ s < 600) →
      resolveCountry (.response s (some ⟨none⟩)) = ("Ocean", "red") ∧
      resolveCountry (.response s (some ⟨some ""⟩)) = ("Ocean", "red") ∧
      resolveCountry (.response s (some ⟨some "??"⟩)) = ("Ocean", "red")) ∧
    (∀ s code name, ¬(400 ≤ s ∧ s < 600) → ¬(code = "" ∨ code = "??") →
      pycountry_get (pyUpper code) = some name →
      resolveCountry (.response s (some ⟨some code⟩)) = (name, "red")) ∧
    (∀ s code, ¬(400 ≤ s ∧ s < 600) → ¬(code = "" ∨ code = "??") →
      pycountry_get (pyUpper code) = none →
      resolveCountry (.response s (some ⟨some code⟩)) = (code, "red")) ∧
    (∀ g, (resolveCountry g).2 = "red") := by
  refine ⟨rfl, ?_, ?_, ?_, ?_, ?_, ?_⟩
  · intro s b h1 h2
    unfold resolveCountry
    dsimp only
    rw [if_pos ⟨h1, h2⟩]
  · intro s h
    unfold resolveCountry
    dsimp only
    rw [if_neg h]
  · intro s h
    unfold resolveCountry
    dsimp only
    rw [if_neg h, if_neg h, if_neg h]
    exact ⟨rfl, rfl, rfl⟩
  · intro s code name h hcode hname
    unfold resolveCountry
    try dsimp only
    rw [if_neg h, if_neg hcode, hname]
  · intro s code h hcode hnone
    unfold resolveCountry
    try dsimp only
    rw [if_neg h, if_neg hcode, hnone]
  · intro g
    rcases g with _ | ⟨s, b⟩
    · rfl
    · unfold resolveCountry
      dsimp only
      split
      · rfl
      · rcases b with _ | ⟨cc⟩
        · rfl
        · rcases cc with _ | code
          · rfl
          · dsimp only
            split
            · rfl
            · rcases hpc : pycountry_get (pyUpper code) with _ | name <;> rfl

/-- Witness for C4 (amended), instantiating each quantified conjunct. -/
theorem spec_C4_resolver_fallback_witness :
    resolveCountry (.response 404 (some ⟨some "US"⟩)) = ("Ocean", "red") ∧
    resolveCountry (.response 200 none) = ("Ocean", "red") ∧
    resolveCountry (.response 200 (some ⟨some "??"⟩)) = ("Ocean", "red") ∧
    resolveCountry (.response 200 (some ⟨some "fr"⟩)) = ("France", "red") ∧
    resolveCountry (.response 200 (some ⟨some "ZZ"⟩)) = ("ZZ", "red") :=
  ⟨spec_C4_resolver_fallback.2.1 404 (some ⟨some "US"⟩) (by decide) (by decide),
   spec_C4_resolver_fallback.2.2.1 200 (by decide),
   (spec_C4_resolver_fallback.2.2.2.1 200 (by decide)).2.2,
   spec_C4_resolver_fallback.2.2.2.2.1 200 "fr" "France" (by decide) (by decide)
     (by decide),
   spec_C4_resolver_fallback.2.2.2.2.2.1 200 "ZZ" (by decide) (by decide)
     (by decide)⟩

/-! ## Telemetry fetch error handling (C5) -/

/-- Counterexample to C5 as stated: a 200 response whose body is not
JSON makes `resp.json()` raise, and that exception is not caught by the
`except` clauses at lines 41-44, so `get_iss_telemetry` raises into its
caller instead of returning a failure value; moreover a 200 response
whose JSON body lacks every required field is returned as a success
with no validation. -/
theorem spec_C5_counterexample :
    get_iss_telemetry (.response 200 none) = .error .jsonDecodeError ∧
    get_iss_telemetry (.response 200 (some [("foo", .str "bar")])) =
      .ok (some [("foo", .str "bar")]) ∧
    ([("foo", JVal.str "bar")] : List (String × JVal)).lookup "latitude" =
      none :=
  ⟨rfl, rfl, rfl⟩

/-- C5 (amended): on timeout, connection failure, or a 4xx/5xx status
the fetch returns the failure value `None` without raising; but a
response body that is not JSON raises a JSON decode error into the
caller, and a JSON body is returned as-is (minus the dropped columns)
with no validation of the required fields. -/
theorem spec_C5_fetch_errors :
    (get_iss_telemetry .timeout = .ok none) ∧
    (get_iss_telemetry .connError = .ok none) ∧
    (∀ s b, 400 ≤ s → s < 600 → get_iss_telemetry (.response s b) = .ok none) ∧
    (∀ s, ¬(400 ≤ s ∧ s < 600) →
      get_iss_telemetry (.response s none) = .error .jsonDecodeError) ∧
    (∀ s d, ¬(400 ≤ s ∧ s < 600) →
      get_iss_telemetry (.response s (some d)) = .ok (some (dropCols d))) := by
  refine ⟨rfl, rfl, ?_, ?_, ?_⟩
  · intro s b h1 h2
    unfold get_iss_telemetry
    dsimp only
    rw [if_pos ⟨h1, h2⟩]
  · intro s h
    unfold get_iss_telemetry
    dsimp only
    rw [if_neg h]
  · intro s d h
    unfold get_iss_telemetry
    dsimp only
    rw [if_neg h]

/-- Witness for C5 (amended), instantiating each quantified conjunct. -/
theorem spec_C5_fetch_errors_witness :
    get_iss_telemetry (.response 500 (some [])) = .ok none ∧
    get_iss_telemetry (.response 200 none) = .error .jsonDecodeError ∧
    get_iss_telemetry (.response 200 (some [("id", .num 25544)])) =
      .ok (some (dropCols [("id", .num 25544)])) :=
  ⟨spec_C5_fetch_errors.2.2.1 500 (some []) (by decide) (by decide),
   spec_C5_fetch_errors.2.2.2.1 200 (by decide),
   spec_C5_fetch_errors.2.2.2.2 200 [("id", .num 25544)] (by decide)⟩

/-! ## Readouts (C8) and markers (C10) -/

/-- C8: whenever a tick succeeds, its output carries exactly the four
scalar readouts — latitude, longitude, altitude, velocity, in the
`TickOut` fields `latBox`/`lonBox`/`altBox`/`velBox` — each the
2-decimal formatting of the fetched value; and when the fetch fails no
output update is emitted. -/
theorem spec_C8_four_readouts :
    (∀ fetch geo now st td out st',
      update_map fetch geo now st td = (.updated out, st') →
      ∃ df lat lon alt vel,
        get_iss_telemetry fetch = .ok (some df) ∧
        getNum df "latitude" = .ok lat ∧ getNum df "longitude" = .ok lon ∧
        getNum df "altitude" = .ok alt ∧ getNum df "velocity" = .ok vel ∧
        out.latBox = fmt2 lat ∧ out.lonBox = fmt2 lon ∧
        out.altBox = fmt2 alt ∧ out.velBox = fmt2 vel) ∧
    (∀ fetch geo now st td, get_iss_telemetry fetch = .ok none →
      update_map fetch geo now st td = (.noUpdate, st)) := by
  constructor
  · intro fetch geo now st td out st' h
    unfold update_map at h
    cases hf : get_iss_telemetry fetch with
    | error e => rw [hf] at h; simp at h
    | ok o =>
      cases o with
      | none => rw [hf] at h; simp at h
      | some df =>
        rw [hf] at h
        dsimp only at h
        cases hlat : getNum df "latitude" with
        | error e => rw [hlat] at h; simp at h
        | ok lat =>
          rw [hlat] at h
          dsimp only at h
          cases hlon : getNum df "longitude" with
          | error e => rw [hlon] at h; simp at h
          | ok lon =>
            rw [hlon] at h
            dsimp only at h
            cases halt : getNum df "altitude" with
            | error e => rw [halt] at h; simp at h
            | ok alt =>
              rw [halt] at h
              dsimp only at h
              cases hvel : getNum df "velocity" with
              | error e => rw [hvel] at h; simp at h
              | ok vel =>
                rw [hvel] at h
                dsimp only at h
                cases hvis : getField df "visibility" with
                | error e => rw [hvis] at h; simp at h
                | ok vis =>
                  rw [hvis] at h
                  dsimp only at h
                  injection h with h1 h2
                  injection h1 with h1
                  subst h1
                  exact ⟨df, lat, lon, alt, vel, rfl, hlat, hlon, halt, hvel,
                    rfl, rfl, rfl, rfl⟩
  · intro fetch geo now st td h
    unfold update_map
    rw [h]

/-- Witness for C8: the success part at the concrete tick `sampleRun`,
and the failure part at a timed-out fetch. -/
theorem spec_C8_four_readouts_witness :
    (∃ df lat lon alt vel,
      get_iss_telemetry sampleFetch = .ok (some df) ∧
      getNum df "latitude" = .ok lat ∧ getNum df "longitude" = .ok lon ∧
      getNum df "altitude" = .ok alt ∧ getNum df "velocity" = .ok vel ∧
      sampleOut.latBox = fmt2 lat ∧ sampleOut.lonBox = fmt2 lon ∧
      sampleOut.altBox = fmt2 alt ∧ sampleOut.velBox = fmt2 vel) ∧
    update_map .timeout .exc "t" initialTrackState ⟨[], [], []⟩ =
      (.noUpdate, initialTrackState) :=
  ⟨spec_C8_four_readouts.1 sampleFetch .exc "t" initialTrackState ⟨[], [], []⟩
      sampleOut sampleRun.2 rfl,
   spec_C8_four_readouts.2 .timeout .exc "t" initialTrackState ⟨[], [], []⟩ rfl⟩

/-- C10: whatever the current sample's visibility — a known category
or not — a successful tick still emits both the main text marker and
the inset marker at the current coordinates without failing, and the
inset marker's color is the mapped style color for a known visibility
and the fallback `"#FFFFFF"` otherwise. -/
theorem spec_C10_markers_always_emitted (lat lon alt vel : ℚ) (vis : JVal)
    (geo : GeoOutcome) (now : String) (st : TrackState) (td : StoreData) :
    ∃ out st',
      update_map (.response 200 (some (mkBody lat lon alt vel vis))) geo now
        st td = (.updated out, st') ∧
      out.fig.mainLat = lat ∧ out.fig.mainLon = lon ∧
      out.fig.mainText = "🎅" ∧
      out.fig.insetLat = lat ∧ out.fig.insetLon = lon ∧
      out.fig.insetColor = (colorOf vis).getD "#FFFFFF" :=
  ⟨_, _, rfl, rfl, rfl, rfl, rfl, rfl, rfl⟩
